import Mathlib

/-!
Shallow embedding of `btcvol_submit_old.py` (btcvol-cli), the single-file
submission tool: validation, notebook cell extraction, submission-structure
creation, registry (models.dev.yml) update, deployment trigger, and log
polling.  Machine strings are modelled as Lean `String` / `List Char`;
Python's `in` on strings is substring containment; `str.strip()` trims
whitespace at both ends; `str.lower()` is modelled on ASCII letters.
Filesystem and subprocess effects are modelled as explicit event traces.
-/

set_option autoImplicit false

/-- Whitespace characters stripped by Python `str.strip()` (ASCII part). -/
def isWsChar (c : Char) : Bool :=
  c == ' ' || c == '\t' || c == '\r' || c == '\n' || c == '\x0b' || c == '\x0c'

/-- Model of Python `str.strip()` on a character list: drop whitespace at both ends. -/
def trimChars (l : List Char) : List Char :=
  ((l.dropWhile isWsChar).reverse.dropWhile isWsChar).reverse

/-- Does `hay` start with the segment `needle`?  (`str.startswith`). -/
def listStarts : List Char → List Char → Bool
  | [], _ => true
  | _ :: _, [] => false
  | a :: as, b :: bs => a == b && listStarts as bs

/-- Does the character list `hay` contain `needle` as a contiguous segment?
Model of Python `needle in hay` on strings. -/
def listHasSub (needle : List Char) : List Char → Bool
  | [] => listStarts needle []
  | b :: bs => listStarts needle (b :: bs) || listHasSub needle bs

/-- String wrapper for substring containment: `needle in hay` in Python. -/
def strHasSub (hay needle : String) : Bool :=
  listHasSub needle.data hay.data

/-- First character test (`str.startswith` with a one-character argument). -/
def headIs : List Char → Char → Bool
  | [], _ => false
  | a :: _, c => a == c

/-- ASCII lowercase model of Python `str.lower()`. -/
def lowerStr (s : String) : String :=
  String.mk (s.data.map Char.toLower)

/-- Lowercase-alphanumeric test: the character class `[a-z0-9]`. -/
def isAlphaNumLower (c : Char) : Bool :=
  ('a' ≤ c && c ≤ 'z') || ('0' ≤ c && c ≤ '9')

/-- One character of `re.sub(r'[^a-z0-9-]', '-', name)`: characters outside
`[a-z0-9-]` become `'-'`, others are kept. -/
def sub1Char (c : Char) : Char :=
  if isAlphaNumLower c || c == '-' then c else '-'

/-- Model of `re.sub(r'-+', '-', name)`: every maximal run of hyphens is
replaced by a single hyphen.  The flag records whether the previous character
belonged to a hyphen run already emitted. -/
def collapseHyAux : Bool → List Char → List Char
  | _, [] => []
  | prev, c :: cs =>
    if c == '-' then
      (if prev then collapseHyAux true cs else '-' :: collapseHyAux true cs)
    else c :: collapseHyAux false cs

/-- Model of `str.strip('-')`: drop hyphens at both ends. -/
def stripHyphens (l : List Char) : List Char :=
  ((l.dropWhile (fun c => c == '-')).reverse.dropWhile (fun c => c == '-')).reverse

/-- `generate_submission_name` (btcvol_submit_old.py lines 84-94).  With a
user-supplied name: lowercase, replace characters outside `[a-z0-9-]` by `'-'`,
collapse hyphen runs, strip hyphens at both ends.  Without one: a
timestamp-based name (`now` stands for `int(time.time())`). -/
def generate_submission_name (model_name : Option String) (now : Nat) : String :=
  match model_name with
  | some nm =>
      String.mk (stripHyphens (collapseHyAux false ((lowerStr nm).data.map sub1Char)))
  | none => "submission-" ++ toString now

/-- Slug transformation as the spec words it: lowercase, collapse every run of
characters outside `[a-z0-9]` to a single hyphen, trim hyphens at both ends.
The flag records whether the previous character belonged to a non-alphanumeric
run already collapsed. -/
def specCollapseAux : Bool → List Char → List Char
  | _, [] => []
  | prev, c :: cs =>
    if isAlphaNumLower c then c :: specCollapseAux false cs
    else (if prev then specCollapseAux true cs else '-' :: specCollapseAux true cs)

/-- Slug generator as described by the spec sentence for claim C8. -/
def specSlug (nm : String) : String :=
  String.mk (stripHyphens (specCollapseAux false (lowerStr nm).data))

/-- A notebook cell's `source` field: either a list of line strings or a
single string (both occur in notebook JSON). -/
inductive CellSource where
  | parts (lines : List String)
  | whole (text : String)
deriving DecidableEq

/-- A notebook cell.  `cell_type` and `source` model `cell.get(...)`: `none`
stands for a missing key. -/
structure Cell where
  cell_type : Option String
  source : Option CellSource
deriving DecidableEq

/-- Joined cell source: `''.join(source)` when the source is a list of lines,
the string itself otherwise, `""` when the key is missing (default `[]`). -/
def joinedSource (c : Cell) : String :=
  match c.source with
  | none => ""
  | some (CellSource.parts l) => String.join l
  | some (CellSource.whole s) => s

/-- The per-cell loop body of `extract_model_code_from_notebook`
(btcvol_submit_old.py lines 57-79): keep a code cell unless its stripped text
is empty, starts with a magic or shell marker, or the unstripped text contains
one of the excluded substrings. -/
def keptCodes : List Cell → List String
  | [] => []
  | c :: cs =>
    if c.cell_type = some "code" then
      if (trimChars (joinedSource c).data).isEmpty
          || headIs (trimChars (joinedSource c).data) '%'
          || headIs (trimChars (joinedSource c).data) '!'
          || strHasSub (joinedSource c) "test_model_locally"
          || strHasSub (joinedSource c) "pip install"
          || strHasSub (joinedSource c) "# Test"
      then keptCodes cs
      else joinedSource c :: keptCodes cs
    else keptCodes cs

/-- `extract_model_code_from_notebook` applied to a parsed cell list
(btcvol_submit_old.py lines 49-81): retained cells joined by a blank line. -/
def extract_model_code_from_notebook (cells : List Cell) : String :=
  String.intercalate "\n\n" (keptCodes cells)

/-- Cell-retention rule as the spec words it for claim C6: a code-type cell
whose joined source, after trimming, is non-empty and does not begin with a
magic or shell marker character, and which contains none of the excluded
substrings. -/
def specKeep (c : Cell) : Bool :=
  (c.cell_type = some "code" : Bool)
    && !(trimChars (joinedSource c).data).isEmpty
    && !headIs (trimChars (joinedSource c).data) '%'
    && !headIs (trimChars (joinedSource c).data) '!'
    && !strHasSub (joinedSource c) "test_model_locally"
    && !strHasSub (joinedSource c) "pip install"
    && !strHasSub (joinedSource c) "# Test"

/-- The fixed library-detection table of `create_submission_structure`
(btcvol_submit_old.py lines 163-168). -/
def import_patterns : List (String × String) :=
  [("numpy", "numpy>=1.24.0"), ("pandas", "pandas>=2.0.0"),
   ("scipy", "scipy>=1.10.0"), ("sklearn", "scikit-learn>=1.3.0")]

/-- Requirement lines whose library name is detected in the code text
(`f'import {pkg}' in code`, lines 170-173). -/
def detectedReqs (code : String) : List String :=
  (import_patterns.filter (fun p => strHasSub code ("import " ++ p.1))).map (fun p => p.2)

/-- Lexicographic order on character lists by code point, the order Python's
`sorted` uses on strings. -/
def charListLe : List Char → List Char → Bool
  | [], _ => true
  | _ :: _, [] => false
  | a :: as, b :: bs =>
    if a = b then charListLe as bs else decide (a < b)

/-- String order wrapper for `charListLe`. -/
def strLeB (s t : String) : Bool := charListLe s.data t.data

/-- Insert into a sorted list (model of Python `sorted`). -/
def insertSorted (x : String) : List String → List String
  | [] => [x]
  | y :: ys => if strLeB x y then x :: y :: ys else y :: insertSorted x ys

/-- Insertion sort on strings (model of Python `sorted`). -/
def sortStrings : List String → List String
  | [] => []
  | x :: xs => insertSorted x (sortStrings xs)

/-- The dependency lines written to `requirements.txt` (lines 170-178):
the sorted detected requirements, or the single baseline dependency when
none is detected. -/
def depsLines (code : String) : List String :=
  if detectedReqs code = [] then ["numpy>=1.24.0"] else sortStrings (detectedReqs code)

/-- The text written to `requirements.txt`: `'\n'.join(sorted(deps)) + '\n'`. -/
def requirementsContent (code : String) : String :=
  String.intercalate "\n" (depsLines code) ++ "\n"

/-- A filesystem path, as its list of components below the repository root. -/
abbrev FPath : Type := List String

/-- `SUBMISSION_BASE` (btcvol_submit_old.py line 28). -/
def SUBMISSION_BASE : FPath :=
  ["deployment", "model-orchestrator-local", "data", "submissions"]

/-- `MODELS_CONFIG` (line 29). -/
def MODELS_CONFIG : FPath :=
  ["deployment", "model-orchestrator-local", "config", "models.dev.yml"]

/-- `BTCVOL_SOURCE` (line 30). -/
def BTCVOL_SOURCE : FPath :=
  SUBMISSION_BASE ++ ["model-1", "btcvol"]

/-- `pathlib` path joining for a single name: joining with the empty string
leaves the path unchanged (`Path(p) / "" == Path(p)`). -/
def pjoin (p : FPath) (s : String) : FPath :=
  if s = "" then p else List.append p [s]

/-- Filesystem mutations performed by `create_submission_structure`, in
execution order. -/
inductive FsEv where
  | rmtreeE (p : FPath)
  | mkdirE (p : FPath)
  | copytreeE (src dst : FPath)
  | writeE (p : FPath) (content : String)
deriving DecidableEq

/-- Failures `create_submission_structure` can raise. -/
inductive SubmitErr where
  | fileNotFound (p : FPath)
  | parseError
deriving DecidableEq

/-- A parsed notebook: its cell list (`notebook.get('cells', [])`; a missing
key behaves as the empty list). -/
structure Notebook where
  cells : List Cell
deriving DecidableEq

/-- The model file as the Structure Builder sees it: a script's text, or a
notebook whose JSON either parses (`some`) or raises a parse error (`none`). -/
inductive ModelInput where
  | script (content : String)
  | noteFile (parsed : Option Notebook)
deriving DecidableEq

/-- Import fixing of `create_submission_structure` (lines 129-142): rewrite
the alternate import form when the canonical one is absent, then prepend
required import lines that are used but missing. -/
def fixImports (code : String) : String :=
  let code1 :=
    if strHasSub code "from btcvol.tracker import TrackerBase" then code
    else code.replace "from btcvol import TrackerBase" "from btcvol.tracker import TrackerBase"
  let req1 : List String :=
    if strHasSub code1 "TrackerBase" && !strHasSub code1 "from btcvol.tracker import TrackerBase"
    then ["from btcvol.tracker import TrackerBase"] else []
  let req2 : List String :=
    if strHasSub code1 "np." && !strHasSub code1 "import numpy as np"
    then ["import numpy as np"] else []
  let reqs := req1 ++ req2
  if reqs = [] then code1 else String.intercalate "\n" reqs ++ "\n\n\n" ++ code1

/-- Main-block truncation (lines 144-153): drop everything from the first
line whose stripped text starts with `if __name__` onward. -/
def dropMainBlock (code : String) : String :=
  let lines := code.splitOn "\n"
  match lines.findIdx? (fun l => listStarts "if __name__".data (trimChars l.data)) with
  | none => code
  | some i => String.intercalate "\n" (lines.take i)

/-- Full post-processing applied to the extracted code before it is written
as `main.py`. -/
def processCode (code : String) : String :=
  dropMainBlock (fixImports code)

/-- `create_submission_structure` (lines 105-181) as a trace semantics:
given the model input, the submission name, and whether the submission
directory and the reference `btcvol` subtree exist, it returns the result
(submission directory or error) together with the filesystem mutations in
execution order.  The pre-existing directory is removed and recreated and the
reference subtree copied before a notebook is parsed; `main.py` and
`requirements.txt` are written last. -/
def create_submission_structure (input : ModelInput) (submission_name : String)
    (subDirExists btcvolExists : Bool) : Except SubmitErr FPath × List FsEv :=
  let subDir := pjoin SUBMISSION_BASE submission_name
  let pre : List FsEv :=
    (if subDirExists then [FsEv.rmtreeE subDir] else []) ++ [FsEv.mkdirE subDir]
  if btcvolExists then
    let pre2 := pre ++ [FsEv.copytreeE BTCVOL_SOURCE (pjoin subDir "btcvol")]
    match input with
    | ModelInput.noteFile none => (Except.error SubmitErr.parseError, pre2)
    | ModelInput.noteFile (some nb) =>
        let code := processCode (extract_model_code_from_notebook nb.cells)
        (Except.ok subDir,
          pre2 ++ [FsEv.writeE (pjoin subDir "main.py") code,
                   FsEv.writeE (pjoin subDir "requirements.txt") (requirementsContent code)])
    | ModelInput.script c =>
        let code := processCode c
        (Except.ok subDir,
          pre2 ++ [FsEv.writeE (pjoin subDir "main.py") code,
                   FsEv.writeE (pjoin subDir "requirements.txt") (requirementsContent code)])
  else (Except.error (SubmitErr.fileNotFound BTCVOL_SOURCE), pre)

/-- A record of the models registry (`models.dev.yml`): the named fields plus
`extra`, the remaining metadata keys of the YAML mapping. -/
structure ModelRecord where
  id : String
  name : String
  submission_id : String
  crunch_id : String
  desired_state : String
  cruncher_id : String
  extra : List (String × String)
deriving DecidableEq

/-- The record appended for a new model (lines 202-209). -/
def newModelRecord (model_id submission_name : String) : ModelRecord :=
  { id := model_id, name := submission_name, submission_id := submission_name,
    crunch_id := "btcvol", desired_state := "RUNNING", cruncher_id := "test_1",
    extra := [] }

/-- The update loop of `update_models_config` (lines 194-199): mutate the
first record with a matching id in place and stop (`break`). -/
def updateFirstMatch (model_id submission_name : String) :
    List ModelRecord → List ModelRecord
  | [] => []
  | m :: ms =>
    if m.id = model_id then
      { m with submission_id := submission_name, desired_state := "RUNNING" } :: ms
    else m :: updateFirstMatch model_id submission_name ms

/-- `update_models_config` (lines 184-224) on the loaded document's record
list (`none` models a document without a `models` key, read back as `[]`):
update the first matching record in place, or append one new record. -/
def update_models_config (models : Option (List ModelRecord))
    (submission_name model_id : String) : List ModelRecord :=
  let ms := models.getD []
  if ms.any (fun m => m.id == model_id) then
    updateFirstMatch model_id submission_name ms
  else ms ++ [newModelRecord model_id submission_name]

/-- External actions of `trigger_deployment`, in execution order. -/
inductive TrigEv where
  | restartCmd
  | sleepGrace (seconds : Nat)
deriving DecidableEq

/-- `trigger_deployment` (lines 227-244): run `docker restart` once with
`check=True`; on exit code 0 sleep the 5-second grace period and return
success, on a non-zero exit the raised `CalledProcessError` skips the sleep
and the handler returns failure. -/
def trigger_deployment (restartExitCode : Nat) : Bool × List TrigEv :=
  if restartExitCode = 0 then (true, [TrigEv.restartCmd, TrigEv.sleepGrace 5])
  else (false, [TrigEv.restartCmd])

/-- Deployment status as returned by the Status Poller. -/
inductive Status where
  | RUNNING
  | FAILED
  | UNKNOWN
deriving DecidableEq

/-- The success marker searched in the logs: `f"Model {model_id} is RUNNING"`. -/
def runningMarkerOf (mid : String) : String := "Model " ++ mid ++ " is RUNNING"

/-- The model marker of the failure check: `f"Model {model_id}"`. -/
def modelMarkerOf (mid : String) : String := "Model " ++ mid

/-- The per-fetch classification of `check_deployment_status` (lines 258-266):
the success check runs first; the failure check only needs the model marker
and `"FAILED"` to occur anywhere in the same log text. -/
def classifyLog (mid logText : String) : Option Status :=
  if strHasSub logText (runningMarkerOf mid) then some Status.RUNNING
  else if strHasSub logText (modelMarkerOf mid) && strHasSub logText "FAILED" then
    some Status.FAILED
  else none

/-- The polling loop of `check_deployment_status` (lines 250-270).  `logs k`
is the log text the `k`-th fetch returns; fetches are instantaneous and each
iteration ends with `time.sleep(3)`, so the `k`-th fetch happens at elapsed
time `3 * k` and the loop runs while `3 * k < maxWait`.  Returns the status
together with the elapsed time at return.  `fuel` bounds the recursion and is
chosen large enough that it never runs out. -/
def pollAux (mid : String) (logs : Nat → String) (maxWait : Nat) :
    Nat → Nat → Status × Nat
  | 0, k => (Status.UNKNOWN, 3 * k)
  | fuel + 1, k =>
    if 3 * k < maxWait then
      match classifyLog mid (logs k) with
      | some st => (st, 3 * k)
      | none => pollAux mid logs maxWait fuel (k + 1)
    else (Status.UNKNOWN, 3 * k)

/-- `check_deployment_status` (lines 247-273) with default `max_wait = 60`:
poll every 3 time-units until the wait budget is exhausted. -/
def check_deployment_status (mid : String) (logs : Nat → String)
    (maxWait : Nat := 60) : Status × Nat :=
  pollAux mid logs maxWait (maxWait + 1) 0

/-- Outcomes of the pipeline steps as `main` (lines 276-374) observes them:
whether validation passed, whether `create_submission_structure` raised,
whether `update_models_config` returned `True`, the `--no-deploy` flag,
whether `trigger_deployment` returned `True`, and the polled status. -/
structure RunEnv where
  validationOk : Bool
  structureOk : Bool
  configOk : Bool
  noDeployFlag : Bool
  triggerOk : Bool
  deployStatus : Status
deriving DecidableEq

/-- The exit code `main` computes (lines 314-374): 1 on validation failure,
structure exception, config failure, or trigger failure; 0 when `--no-deploy`
stops after the config update; otherwise 0 exactly on a RUNNING status. -/
def mainExit (e : RunEnv) : Nat :=
  if e.validationOk = false then 1
  else if e.structureOk = false then 1
  else if e.configOk = false then 1
  else if e.noDeployFlag then 0
  else if e.triggerOk = false then 1
  else if e.deployStatus = Status.RUNNING then 0 else 1

/-- Sample registry record used by the witness of the Config Updater claim. -/
def sampleRecordA : ModelRecord :=
  { id := "12315", name := "model-a", submission_id := "sub-a", crunch_id := "btcvol",
    desired_state := "STOPPED", cruncher_id := "test_1", extra := [("note", "keep")] }

/-- Log-fetch sequence used by the witness of the Status Poller claim: the
success marker appears on the second fetch. -/
def c5LogsW (k : Nat) : String :=
  if k = 1 then "Model 123 is RUNNING" else "starting orchestrator"

/-- Replacing characters outside `[a-z0-9-]` by hyphens and then collapsing
hyphen runs is the same as collapsing runs of non-alphanumeric characters
directly: the two slug descriptions coincide before the final trim. -/
theorem collapse_map_sub1 (l : List Char) :
    ∀ b, collapseHyAux b (l.map sub1Char) = specCollapseAux b l := by
  induction l with
  | nil => intro b; rfl
  | cons c cs ih =>
    intro b
    by_cases han : isAlphaNumLower c = true
    · have hcne : c ≠ '-' := by
        intro h
        subst h
        exact absurd han (by decide)

      simp [sub1Char, han, collapseHyAux, specCollapseAux, hcne, ih]
    · have h1 : sub1Char c = '-' := by
        by_cases hc : c = '-' <;> simp [sub1Char, han, hc]
      cases b <;>
        simp [List.map_cons, h1, collapseHyAux, specCollapseAux, han, ih]

/-- Claim C8: for every user-supplied submission name, the generated slug is
the name lowercased with every run of characters outside `[a-z0-9]` collapsed
to a single hyphen and leading/trailing hyphens trimmed; in particular
`"My Cool Model!!"` yields `"my-cool-model"`. -/
theorem c8_slug (nm : String) (now : Nat) :
    generate_submission_name (some nm) now = specSlug nm ∧
    generate_submission_name (some "My Cool Model!!") now = "my-cool-model" := by
  constructor
  · simp [generate_submission_name, specSlug, collapse_map_sub1]
  · simp only [generate_submission_name]
    decide

/-- Claim C2: the process exit code is 0 exactly when validation, structure
creation and the config update succeed and either deployment is skipped via
the no-deploy flag or it is triggered and confirmed RUNNING; every other
combination, including a FAILED or UNKNOWN status, exits 1. -/
theorem c2_exit_code (e : RunEnv) :
    (mainExit e = 0 ↔
      (e.validationOk = true ∧ e.structureOk = true ∧ e.configOk = true ∧
        (e.noDeployFlag = true ∨
          (e.triggerOk = true ∧ e.deployStatus = Status.RUNNING)))) ∧
    (mainExit e = 0 ∨ mainExit e = 1) := by
  rcases e with ⟨v, s, c, n, t, st⟩
  cases v <;> cases s <;> cases c <;> cases n <;> cases t <;> cases st <;> decide

/-- Witness for claim C2: a run that creates the submission and skips
deployment via the no-deploy flag exits 0. -/
theorem c2_exit_code_witness :
    mainExit ⟨true, true, true, true, false, Status.UNKNOWN⟩ = 0 :=
  (c2_exit_code ⟨true, true, true, true, false, Status.UNKNOWN⟩).1.mpr (by decide)

/-- Counterexample to claim C4 as stated: on a non-zero exit of the restart
command the function returns failure with no grace-period sleep in its action
trace — the wait is not unconditional. -/
theorem c4_counterexample :
    trigger_deployment 1 = (false, [TrigEv.restartCmd]) ∧
    TrigEv.sleepGrace 5 ∉ (trigger_deployment 1).2 := by decide

/-- Claim C4 as amended: the Deployment Trigger issues exactly one restart
command; it succeeds exactly on exit code 0, and the fixed grace-period wait
happens only on the success path, not after a failed restart. -/
theorem c4_amended (ec : Nat) :
    (trigger_deployment ec).2.count TrigEv.restartCmd = 1 ∧
    ((trigger_deployment ec).1 = true ↔ ec = 0) ∧
    (trigger_deployment ec).2.count (TrigEv.sleepGrace 5) = (if ec = 0 then 1 else 0) := by
  by_cases h : ec = 0
  · subst h; decide
  · simp [trigger_deployment, h]

/-- Witness for the amended claim C4: on exit code 0 the grace-period wait
happens exactly once. -/
theorem c4_amended_witness :
    (trigger_deployment 0).2.count (TrigEv.sleepGrace 5) = 1 := by
  have h := (c4_amended 0).2.2
  simpa using h

/-- Claim C10: the success check runs before the failure check, so a log text
containing the success marker classifies as RUNNING even if it also contains
`"FAILED"`; and when the success marker is absent, the FAILED classification
holds exactly when `"Model <id>"` and `"FAILED"` each occur anywhere in the
text. -/
theorem c10_precedence (mid logText : String) :
    (strHasSub logText (runningMarkerOf mid) = true →
      classifyLog mid logText = some Status.RUNNING) ∧
    (strHasSub logText (runningMarkerOf mid) = false →
      (classifyLog mid logText = some Status.FAILED ↔
        (strHasSub logText (modelMarkerOf mid) = true ∧
          strHasSub logText "FAILED" = true))) := by
  constructor
  · intro h
    simp [classifyLog, h]
  · intro h
    by_cases h1 : strHasSub logText (modelMarkerOf mid) = true <;>
      by_cases h2 : strHasSub logText "FAILED" = true <;>
        simp [classifyLog, h, h1, h2]

/-- Witness for claim C10: a text containing the success marker and the word
FAILED far apart still classifies as RUNNING. -/
theorem c10_precedence_witness :
    classifyLog "9" "Model 9 is RUNNING though an earlier try FAILED" =
      some Status.RUNNING :=
  (c10_precedence "9" "Model 9 is RUNNING though an earlier try FAILED").1 (by decide)

/-- Counterexample to claim C1 as stated: a notebook whose JSON fails to parse
still causes the pre-existing submission directory to be deleted and
recreated and the support subtree to be copied, all before the parse error
aborts the run — the trace of mutations preceding the error is non-empty. -/
theorem c1_counterexample :
    (create_submission_structure (ModelInput.noteFile none) "bad-model" true true).1 =
        Except.error SubmitErr.parseError ∧
    FsEv.rmtreeE (pjoin SUBMISSION_BASE "bad-model") ∈
        (create_submission_structure (ModelInput.noteFile none) "bad-model" true true).2 ∧
    FsEv.mkdirE (pjoin SUBMISSION_BASE "bad-model") ∈
        (create_submission_structure (ModelInput.noteFile none) "bad-model" true true).2 :=
  ⟨rfl, by decide, by decide⟩

/-- Claim C1 as amended: on a malformed notebook the run aborts with a parse
error and neither the entry-point file nor the dependency manifest is
written, but only after the submission directory has been deleted (when it
pre-existed), recreated, and the support subtree copied. -/
theorem c1_amended (name : String) (subEx : Bool) :
    create_submission_structure (ModelInput.noteFile none) name subEx true =
      (Except.error SubmitErr.parseError,
        (if subEx then [FsEv.rmtreeE (pjoin SUBMISSION_BASE name)] else []) ++
          [FsEv.mkdirE (pjoin SUBMISSION_BASE name),
           FsEv.copytreeE BTCVOL_SOURCE (pjoin (pjoin SUBMISSION_BASE name) "btcvol")]) := by
  cases subEx <;> rfl

/-- Claim C9: a name with no `[a-z0-9]` character slugifies to the empty
string, the submission directory path then equals the submissions base
directory itself, and the first two mutations of the Structure Builder are
the recursive deletion of that base directory followed by its recreation. -/
theorem c9_empty_slug (now : Nat) (input : ModelInput) (b : Bool) :
    generate_submission_name (some "!!!") now = "" ∧
    pjoin SUBMISSION_BASE "" = SUBMISSION_BASE ∧
    (create_submission_structure input "" true b).2.take 2 =
      [FsEv.rmtreeE SUBMISSION_BASE, FsEv.mkdirE SUBMISSION_BASE] := by
  refine ⟨?_, by decide, ?_⟩
  · simp only [generate_submission_name]
    decide
  · cases input with
    | script c => cases b <;> simp [create_submission_structure, pjoin]
    | noteFile p => cases p <;> cases b <;> simp [create_submission_structure, pjoin]

/-- The Python skip loop and the spec's positive retention rule keep the same
cells: the extractor's kept code list is the filter by `specKeep`, in order. -/
theorem keptCodes_filter_eq (cells : List Cell) :
    keptCodes cells = (cells.filter specKeep).map joinedSource := by
  induction cells with
  | nil => rfl
  | cons c cs ih =>
    by_cases hct : c.cell_type = some "code"
    · by_cases h1 : (trimChars (joinedSource c).data).isEmpty = true <;>
        by_cases h2 : headIs (trimChars (joinedSource c).data) '%' = true <;>
          by_cases h3 : headIs (trimChars (joinedSource c).data) '!' = true <;>
            by_cases h4 : strHasSub (joinedSource c) "test_model_locally" = true <;>
              by_cases h5 : strHasSub (joinedSource c) "pip install" = true <;>
                by_cases h6 : strHasSub (joinedSource c) "# Test" = true <;>
                  simp [keptCodes, specKeep, List.filter_cons, hct, h1, h2, h3, h4, h5, h6, ih]
    · simp [keptCodes, specKeep, List.filter_cons, hct, ih]

/-- Claim C6: the Extractor returns exactly the code-type cells that pass the
retention rule (non-empty after trimming, no leading magic or shell marker,
none of the excluded substrings), concatenated in original order and
separated by a blank line. -/
theorem c6_extractor (cells : List Cell) :
    extract_model_code_from_notebook cells =
      String.intercalate "\n\n" ((cells.filter specKeep).map joinedSource) := by
  simp [extract_model_code_from_notebook, keptCodes_filter_eq]

/-- Membership in an insertion step of the sort. -/
theorem mem_insertSorted (x a : String) (l : List String) :
    a ∈ insertSorted x l ↔ a = x ∨ a ∈ l := by
  induction l with
  | nil => simp [insertSorted]
  | cons y ys ih =>
    by_cases h : strLeB x y = true
    · simp [insertSorted, h]
    · simp [insertSorted, h, ih]
      tauto

/-- Sorting does not change membership. -/
theorem mem_sortStrings (a : String) (l : List String) :
    a ∈ sortStrings l ↔ a ∈ l := by
  induction l with
  | nil => simp [sortStrings]
  | cons x xs ih => simp [sortStrings, mem_insertSorted, ih]

/-- Claim C7: a requirement line appears in the dependency manifest exactly
when its library is detected in the code text, except that the single numpy
baseline is listed when no library is detected; the manifest text is the
lines joined by newlines with a trailing newline. -/
theorem c7_requirements (code : String) :
    (∀ r : String, r ∈ depsLines code ↔
      ((∃ p, p ∈ import_patterns ∧ strHasSub code ("import " ++ p.1) = true ∧ r = p.2) ∨
        ((∀ p, p ∈ import_patterns → strHasSub code ("import " ++ p.1) = false) ∧
          r = "numpy>=1.24.0"))) ∧
    requirementsContent code = String.intercalate "\n" (depsLines code) ++ "\n" := by
  refine ⟨?_, rfl⟩
  intro r
  by_cases hd : detectedReqs code = []
  · have hall : ∀ p, p ∈ import_patterns → strHasSub code ("import " ++ p.1) = false := by
      intro p hp
      have hfil : import_patterns.filter
          (fun p => strHasSub code ("import " ++ p.1)) = [] := by
        have := hd
        simpa [detectedReqs, List.map_eq_nil_iff] using this
      have := List.filter_eq_nil_iff.mp hfil p hp
      simpa using this
    constructor
    · intro hr
      have : r = "numpy>=1.24.0" := by simpa [depsLines, hd] using hr
      exact Or.inr ⟨hall, this⟩
    · rintro (⟨p, hp, hpred, rfl⟩ | ⟨h1, rfl⟩)
      · exact absurd hpred (by simp [hall p hp])
      · simp [depsLines, hd]
  · constructor
    · intro hr
      have hr2 : r ∈ detectedReqs code := by
        have := hr
        simpa [depsLines, hd, mem_sortStrings] using this
      left
      rcases List.mem_map.mp hr2 with ⟨p, hpf, hval⟩
      rcases List.mem_filter.mp hpf with ⟨hp, hpred⟩
      exact ⟨p, hp, hpred, hval.symm⟩
    · rintro (⟨p, hp, hpred, rfl⟩ | ⟨h1, rfl⟩)
      · have : p.2 ∈ detectedReqs code :=
          List.mem_map.mpr ⟨p, List.mem_filter.mpr ⟨hp, hpred⟩, rfl⟩
        simpa [depsLines, hd, mem_sortStrings] using this
      · exfalso
        apply hd
        simp only [detectedReqs, List.map_eq_nil_iff]
        exact List.filter_eq_nil_iff.mpr (fun p hp => by simp [h1 p hp])

/-- Witness for claim C7: with sklearn detected in the code text, its pinned
requirement line is listed. -/
theorem c7_requirements_witness :
    "scikit-learn>=1.3.0" ∈ depsLines "import sklearn" :=
  ((c7_requirements "import sklearn").1 "scikit-learn>=1.3.0").mpr
    (Or.inl ⟨("sklearn", "scikit-learn>=1.3.0"), by decide, by decide, rfl⟩)

/-- The update loop leaves the record count unchanged. -/
theorem updateFirstMatch_length (mid sn : String) (ms : List ModelRecord) :
    (updateFirstMatch mid sn ms).length = ms.length := by
  induction ms with
  | nil => rfl
  | cons m ms ih => by_cases h : m.id = mid <;> simp [updateFirstMatch, h, ih]

/-- When the records before `m` do not match and `m` does, the update loop
rewrites exactly `m`, in place. -/
theorem updateFirstMatch_split (mid sn : String) :
    ∀ (pre : List ModelRecord) (m : ModelRecord) (post : List ModelRecord),
      (∀ x ∈ pre, x.id ≠ mid) → m.id = mid →
      updateFirstMatch mid sn (pre ++ m :: post) =
        pre ++ { m with submission_id := sn, desired_state := "RUNNING" } :: post := by
  intro pre
  induction pre with
  | nil =>
    intro m post _ hm
    simp [updateFirstMatch, hm]
  | cons x xs ih =>
    intro m post hpre hm
    have hx : x.id ≠ mid := hpre x (by simp)
    simp only [List.cons_append, updateFirstMatch, if_neg hx, List.append_eq]
    rw [ih m post (fun y hy => hpre y (by simp [hy])) hm]

/-- Claim C3: with no matching record the Config Updater appends exactly one
new record carrying the submission name as both name and submission id and
desired state RUNNING, leaving existing records unchanged; with a matching
record (the first such, here exposed as the decomposition point) it rewrites
only that record's submission id and desired state in place, keeping every
other record, every other field of that record, and the record count. -/
theorem c3_config_updater (sname mid : String) :
    (∀ models : List ModelRecord, (∀ m ∈ models, m.id ≠ mid) →
      update_models_config (some models) sname mid =
        models ++ [newModelRecord mid sname]) ∧
    (∀ (pre : List ModelRecord) (m : ModelRecord) (post : List ModelRecord),
      (∀ x ∈ pre, x.id ≠ mid) → m.id = mid →
      update_models_config (some (pre ++ m :: post)) sname mid =
        pre ++ { m with submission_id := sname, desired_state := "RUNNING" } :: post ∧
      (update_models_config (some (pre ++ m :: post)) sname mid).length =
        (pre ++ m :: post).length) := by
  constructor
  · intro models hnone
    have hany : models.any (fun m => m.id == mid) = false := by
      rw [Bool.eq_false_iff]
      intro h
      rcases List.any_eq_true.mp h with ⟨m, hm, hid⟩
      exact hnone m hm (by simpa using hid)
    simp [update_models_config, hany]
  · intro pre m post hpre hm
    have hany : (pre ++ m :: post).any (fun x => x.id == mid) = true :=
      List.any_eq_true.mpr ⟨m, by simp, by simp [hm]⟩
    have heq : update_models_config (some (pre ++ m :: post)) sname mid =
        pre ++ { m with submission_id := sname, desired_state := "RUNNING" } :: post := by
      simp only [update_models_config, Option.getD_some, hany, if_true]
      exact updateFirstMatch_split mid sname pre m post hpre hm
    refine ⟨heq, ?_⟩
    rw [heq]
    simp

/-- Witness for claim C3: updating a registry holding one matching record
rewrites exactly its submission id and desired state, keeping the other
fields (including the extra metadata) and the record count. -/
theorem c3_config_updater_witness :
    update_models_config (some [sampleRecordA]) "new-sub" "12315" =
      [{ sampleRecordA with submission_id := "new-sub", desired_state := "RUNNING" }] := by
  have h := ((c3_config_updater "new-sub" "12315").2 [] sampleRecordA []
    (by simp) rfl).1
  simpa using h

/-- One polling step that matches nothing advances to the next fetch. -/
theorem pollAux_advance (mid : String) (logs : Nat → String) (maxWait : Nat)
    (fuel k : Nat) (hlt : 3 * k < maxWait) (hnone : classifyLog mid (logs k) = none) :
    pollAux mid logs maxWait (fuel + 1) k = pollAux mid logs maxWait fuel (k + 1) := by
  simp [pollAux, hlt, hnone]

/-- Skipping a block of non-matching fetches inside the wait window. -/
theorem pollAux_skip (mid : String) (logs : Nat → String) (maxWait : Nat) :
    ∀ (d fuel k : Nat),
      (∀ j, k ≤ j → j < k + d → classifyLog mid (logs j) = none) →
      3 * (k + d) ≤ maxWait →
      pollAux mid logs maxWait (fuel + d) k = pollAux mid logs maxWait fuel (k + d) := by
  intro d
  induction d with
  | zero => intro fuel k _ _; rfl
  | succ d ih =>
    intro fuel k hnone hb
    have hstep : pollAux mid logs maxWait (fuel + d + 1) k =
        pollAux mid logs maxWait (fuel + d) (k + 1) := by
      apply pollAux_advance
      · omega
      · exact hnone k (Nat.le_refl k) (by omega)
    have htail := ih fuel (k + 1)
      (fun j hj1 hj2 => hnone j (by omega) (by omega)) (by omega)
    calc pollAux mid logs maxWait (fuel + (d + 1)) k
        = pollAux mid logs maxWait (fuel + d + 1) k := by ring_nf
      _ = pollAux mid logs maxWait (fuel + d) (k + 1) := hstep
      _ = pollAux mid logs maxWait fuel (k + 1 + d) := htail
      _ = pollAux mid logs maxWait fuel (k + (d + 1)) := by ring_nf

/-- When every fetch inside the window matches nothing, the loop runs the
window down and returns UNKNOWN no earlier than the wait budget. -/
theorem pollAux_no_match (mid : String) (logs : Nat → String) (maxWait : Nat) :
    ∀ (fuel k : Nat),
      (∀ j, 3 * j < maxWait → classifyLog mid (logs j) = none) →
      maxWait ≤ 3 * (k + fuel) →
      ∃ t, pollAux mid logs maxWait fuel k = (Status.UNKNOWN, t) ∧ maxWait ≤ t := by
  intro fuel
  induction fuel with
  | zero =>
    intro k _ hb
    exact ⟨3 * k, rfl, by omega⟩
  | succ fuel ih =>
    intro k h hb
    by_cases hlt : 3 * k < maxWait
    · rw [pollAux_advance mid logs maxWait fuel k hlt (h k hlt)]
      exact ih (k + 1) h (by omega)
    · exact ⟨3 * k, by simp [pollAux, hlt], by omega⟩

/-- Claim C5: the poller returns RUNNING at the first fetch containing the
success marker — at elapsed time `3 * k`, strictly inside the wait window —
provided the earlier fetches matched neither criterion (otherwise that fetch
never happens); and when no fetch inside the window matches either criterion
it returns UNKNOWN only once at least the full wait duration has elapsed. -/
theorem c5_status_poller (mid : String) (logs : Nat → String) (maxWait : Nat) :
    (∀ k : Nat, 3 * k < maxWait →
      strHasSub (logs k) (runningMarkerOf mid) = true →
      (∀ j, j < k → classifyLog mid (logs j) = none) →
      check_deployment_status mid logs maxWait = (Status.RUNNING, 3 * k) ∧
        3 * k < maxWait) ∧
    ((∀ k : Nat, 3 * k < maxWait → classifyLog mid (logs k) = none) →
      ∃ t, check_deployment_status mid logs maxWait = (Status.UNKNOWN, t) ∧
        maxWait ≤ t) := by
  constructor
  · intro k hk hrun hnone
    refine ⟨?_, hk⟩
    have hfuel : maxWait + 1 = (maxWait + 1 - k) + k := by omega
    have hskip := pollAux_skip mid logs maxWait k (maxWait + 1 - k) 0
      (fun j _ hj => hnone j (by omega)) (by omega)
    have hrw : check_deployment_status mid logs maxWait =
        pollAux mid logs maxWait (maxWait + 1 - k) k := by
      unfold check_deployment_status
      rw [hfuel, hskip]
      simp
    rw [hrw]
    have hfuel2 : maxWait + 1 - k = (maxWait - k) + 1 := by omega
    rw [hfuel2]
    simp [pollAux, hk, classifyLog, hrun]
  · intro h
    exact pollAux_no_match mid logs maxWait (maxWait + 1) 0 h (by omega)

/-- Witness for claim C5: with the success marker appearing on the second
fetch, the poller returns RUNNING at elapsed time 3, well before the default
60-unit timeout. -/
theorem c5_status_poller_witness :
    check_deployment_status "123" c5LogsW 60 = (Status.RUNNING, 3) :=
  ((c5_status_poller "123" c5LogsW 60).1 1 (by decide) (by decide)
    (fun j hj => by
      have hj0 : j = 0 := by omega
      subst hj0
      decide)).1
